import Mathlib

/-!
Verification of the transcribo `scriber` pipeline (package `scriber`, plus
the startup check in `main.go`).

Strings are modelled as `List Char` (the inputs of interest are ASCII, where
Go's byte-based string operations coincide with character-based ones), byte
payloads as `List Nat`, and the effects of `Scriber.Process` (calls to
`Input.Data()`, `Close`, the external `ffmpeg` process, the whisper backend
and channel sends) as an explicit event trace produced alongside the result.
-/

namespace Transcribo

/-- Go strings, as lists of characters. -/
abbrev GoStr := List Char

/-- Bytes of a payload (`[]byte`). -/
abbrev Bytes := List Nat

/-- Convenience: a Lean string literal as a `GoStr`. -/
def str (s : String) : GoStr := s.data

/-- Auxiliary scan for `filepath.Ext`: walks the reversed path, accumulating
characters until the first `'.'` (returning the extension) or a path
separator (`'/'` on the target platform) or the start of the string
(returning the empty extension). Mirrors the loop in Go's
`path/filepath.Ext`, which scans `path` from the end. -/
def extAux : List Char → List Char → List Char
  | [], _ => []
  | c :: rest, acc =>
    if c = '/' then []
    else if c = '.' then c :: acc
    else extAux rest (c :: acc)

/-- Go's `filepath.Ext`: the suffix beginning at the final dot in the final
slash-separated element of `path`; empty if there is no dot. -/
def filepathExt (path : GoStr) : GoStr := extAux path.reverse []

/-- Index of the first (leftmost) occurrence of `pat` in `s`, as in Go's
`strings.Index`; `some 0` when `pat` is empty. -/
def strIndex (pat : GoStr) : GoStr → Option Nat
  | [] => if pat = [] then some 0 else none
  | s@(_ :: rest) =>
    if pat.isPrefixOf s then some 0
    else (strIndex pat rest).map (· + 1)

/-- Go's `strings.Replace(s, old, new, 1)`: if `old = new` or `old` does not
occur in `s`, `s` is returned unchanged; otherwise the first occurrence of
`old` (the occurrence at position 0 when `old` is empty) is replaced by
`new`. -/
def goReplace1 (s old new : GoStr) : GoStr :=
  if old = new then s
  else
    match strIndex old s with
    | none => s
    | some j => s.take j ++ new ++ s.drop (j + old.length)

/-- The `Output.Name` derivation in `Scriber.Process`:
`strings.Replace(in.Name(), filepath.Ext(in.Name()), "."+in.OutputType(), 1)`. -/
def outputName (name outputType : GoStr) : GoStr :=
  goReplace1 name (filepathExt name) ('.' :: outputType)

example : filepathExt (str "foo.mp4") = str ".mp4" := by decide
example : filepathExt (str "clip") = str "" := by decide
example : outputName (str "lecture.mp4") (str "srt") = str "lecture.srt" := by decide
example : outputName (str "clip") (str "srt") = str ".srtclip" := by decide
example : outputName (str "a.mp4.backup.mp4") (str "srt") = str "a.srt.backup.mp4" := by decide

/-- Go contexts, as far as the pipeline uses them: the caller-supplied
context, or a derived sub-context carrying a timeout
(`context.WithTimeout(parent, d)`), with the duration in milliseconds. -/
inductive Ctx where
  | base : Ctx
  | withTimeout (parent : Ctx) (millis : Nat) : Ctx
deriving DecidableEq

/-- `5 * time.Minute`, in milliseconds. -/
def fiveMinutes : Nat := 5 * 60 * 1000

/-- A Go channel of `Output` values; the model keeps the capacity it was
made with (`make(chan Output, capacity)`). -/
structure Chan where
  capacity : Nat
deriving DecidableEq

/-- The `scriber.Input` interface: `Name()`, `OutputType()`, `Language()`.
`Data()` is modelled as an effect (see `Event.dataCall`); the outcome of
reading it lives in `Env.readAll`. -/
structure Input where
  name : GoStr
  outputType : GoStr
  language : GoStr
deriving DecidableEq

/-- The `scriber.Output` value type. -/
structure Output where
  name : GoStr
  text : Bytes
deriving DecidableEq

/-- `whisperclient.TranscribeAudioInput` as `Process` fills it in:
`Name`, `Language`, `Format` and the transcoded audio bytes (`Data`). -/
structure TranscribeAudioInput where
  name : GoStr
  language : GoStr
  format : GoStr
  data : Bytes
deriving DecidableEq

/-- The external command `Process` builds: program name, argument list,
the context governing it (`none`: built with `exec.Command`, which takes no
context), the bytes wired to its standard input, and whether stdout is
captured into a buffer and stderr forwarded to the host's stderr. -/
structure Cmd where
  prog : GoStr
  args : List GoStr
  ctx : Option Ctx
  stdin : Bytes
  stdoutToBuf : Bool
  stderrToHostStderr : Bool
deriving DecidableEq

/-- The observable effects of one `Process` call, in order:
`dataCall` — an invocation of `in.Data()`;
`closeCall k` — `Close()` invoked on the reader returned by the `k`-th
`Data()` invocation (0-based);
`runCmd c` — running the external command `c` to completion;
`transcribeCall c tin` — invoking the whisper backend under context `c`;
`send ch o` / `recvCh ch` / `closeCh ch` — channel operations. -/
inductive Event where
  | dataCall : Event
  | closeCall (readerIdx : Nat) : Event
  | runCmd (c : Cmd) : Event
  | transcribeCall (c : Ctx) (tin : TranscribeAudioInput) : Event
  | send (ch : Chan) (o : Output) : Event
  | recvCh (ch : Chan) : Event
  | closeCh (ch : Chan) : Event
deriving DecidableEq

/-- Errors are their messages; `fmt.Errorf("prefix: %w", err)` becomes
concatenation of the prefix onto the wrapped message. -/
abbrev GoErr := GoStr

/-- Wrap an error as `fmt.Errorf` with a `%w` verb does. -/
def wrapErr (prefix_ : GoStr) (e : GoErr) : GoErr := prefix_ ++ e

/-- The environment a `Process` call runs against: the outcome of
`io.ReadAll(in.Data())`, the behaviour of the external `ffmpeg` process
(stdin bytes to stdout bytes, or a start/exit failure), and the behaviour
of the whisper backend. -/
structure Env where
  readAll : Except GoErr Bytes
  ffmpeg : Bytes → Except GoErr Bytes
  transcribe : Ctx → TranscribeAudioInput → Except GoErr Bytes

/-- `const sampleRate = "5200"`. -/
def sampleRate : GoStr := str "5200"

/-- The fixed `ffmpeg` argument list built in `Process`. -/
def ffmpegArgs : List GoStr :=
  [str "-y",
   str "-i", str "pipe:0",
   str "-vn",
   str "-acodec", str "pcm_s16le",
   str "-ar", sampleRate,
   str "-ac", str "2",
   str "-b:a", str "32k",
   str "-f", str "wav",
   str "pipe:1"]

/-- The command `Process` constructs: `exec.Command("ffmpeg", ...)` (hence
no context), `cmd.Stdin = bytes.NewReader(data)`, `cmd.Stdout = &outBuf`,
`cmd.Stderr = os.Stderr`. -/
def mkCmd (data : Bytes) : Cmd :=
  { prog := str "ffmpeg"
    args := ffmpegArgs
    ctx := none
    stdin := data
    stdoutToBuf := true
    stderrToHostStderr := true }

/-- The `Scriber` struct. The logger only produces log lines and is not
modelled; the whisper client's behaviour lives in `Env.transcribe`. -/
structure Scriber where
  resultsCh : Chan
deriving DecidableEq

/-- `scriber.New`: `resultsCh: make(chan Output, 10)`. -/
def New : Scriber := { resultsCh := { capacity := 10 } }

/-- `Scriber.Collect`: returns the (receive-only view of the) delivery
channel itself. -/
def Collect (s : Scriber) : Chan := s.resultsCh

/-- `Scriber.Process(ctx, in)`, as the pair of its return value and the
trace of its effects, in program order. Mirrors the Go source:

1. `data, err := io.ReadAll(in.Data())` — one `Data()` call; on error,
   return `fmt.Errorf("reading input: %w", err)` with no further effect
   (in particular the `defer` below was never registered).
2. `defer in.Data().Close()` — the receiver `in.Data()` is evaluated at
   the `defer` statement (a second `Data()` call, reader index 1); its
   `Close` runs when the function returns.
3. Build and run the `ffmpeg` command on `data`; on error return
   `fmt.Errorf("ffmpeg failed: %w", err)`.
4. `ctx, cancel := context.WithTimeout(ctx, 5*time.Minute)` and call
   `TranscribeAudio` under that sub-context; on error return
   `fmt.Errorf("transcription failed: %w", err)`.
5. Send the `Output` (name derived by `outputName`, text exactly the
   backend's bytes) on `s.resultsCh`, then return `nil`. -/
def Process (s : Scriber) (env : Env) (ctx : Ctx) (inp : Input) :
    Except GoErr Unit × List Event :=
  match env.readAll with
  | .error e => (.error (wrapErr (str "reading input: ") e), [.dataCall])
  | .ok data =>
    let cmd := mkCmd data
    match env.ffmpeg data with
    | .error e =>
      (.error (wrapErr (str "ffmpeg failed: ") e),
       [.dataCall, .dataCall, .runCmd cmd, .closeCall 1])
    | .ok wav =>
      let subCtx := Ctx.withTimeout ctx fiveMinutes
      let tin : TranscribeAudioInput :=
        { name := inp.name, language := inp.language,
          format := inp.outputType, data := wav }
      match env.transcribe subCtx tin with
      | .error e =>
        (.error (wrapErr (str "transcription failed: ") e),
         [.dataCall, .dataCall, .runCmd cmd, .transcribeCall subCtx tin,
          .closeCall 1])
      | .ok text =>
        let out : Output :=
          { name := outputName inp.name inp.outputType, text := text }
        (.ok (),
         [.dataCall, .dataCall, .runCmd cmd, .transcribeCall subCtx tin,
          .send s.resultsCh out, .closeCall 1])

/-- Outputs sent on any channel during a trace, in order. -/
def sentOutputs (tr : List Event) : List Output :=
  tr.filterMap fun e =>
    match e with
    | .send _ o => some o
    | _ => none

/-- Channels sent to during a trace. -/
def sendTargets (tr : List Event) : List Chan :=
  tr.filterMap fun e =>
    match e with
    | .send ch _ => some ch
    | _ => none

/-- External commands run during a trace. -/
def cmdsRun (tr : List Event) : List Cmd :=
  tr.filterMap fun e =>
    match e with
    | .runCmd c => some c
    | _ => none

/-- Backend invocations (context and request) during a trace. -/
def transcribeCalls (tr : List Event) : List (Ctx × TranscribeAudioInput) :=
  tr.filterMap fun e =>
    match e with
    | .transcribeCall c tin => some (c, tin)
    | _ => none

/-- Number of `in.Data()` invocations in a trace. -/
def dataCallCount (tr : List Event) : Nat :=
  (tr.filter fun e => e = Event.dataCall).length

/-- Reader indices on which `Close()` was invoked, in order. -/
def closeCalls (tr : List Event) : List Nat :=
  tr.filterMap fun e =>
    match e with
    | .closeCall k => some k
    | _ => none

/-- Channels received from (`<-ch`) or closed (`close(ch)`) during a
trace. -/
def recvOrCloseOps (tr : List Event) : List Chan :=
  tr.filterMap fun e =>
    match e with
    | .recvCh ch => some ch
    | .closeCh ch => some ch
    | _ => none

/-- `true` iff no `transcribeCall` event occurs before the first `runCmd`
event: scanning left to right, the first of the two kinds encountered is
`runCmd` (or neither occurs). -/
def runCmdFirst : List Event → Bool
  | [] => true
  | .transcribeCall _ _ :: _ => false
  | .runCmd _ :: _ => true
  | _ :: rest => runCmdFirst rest

/-- The startup check in `main.go`: `os.Getenv("OPENAI_API_KEY")` yields
the empty string when the variable is absent, in which case the program
logs and calls `os.Exit(1)` before building the app or handling any file;
otherwise startup proceeds and constructs the `Scriber` via `New`. -/
def mainStartup (openAIKey : GoStr) : Except Nat Scriber :=
  if openAIKey = [] then .error 1 else .ok New

/-! ### Concrete fixtures used by witnesses and counterexamples -/

/-- An input named `clip` (no extension), output type `srt`. -/
def inpClip : Input :=
  { name := str "clip", outputType := str "srt", language := str "en" }

/-- An environment where all three stages succeed. -/
def envOk : Env :=
  { readAll := .ok [1, 2, 3]
    ffmpeg := fun _ => .ok [9, 9]
    transcribe := fun _ _ => .ok [7, 8] }

/-- An environment where reading the input stream fails. -/
def envReadFail : Env :=
  { readAll := .error (str "disk error")
    ffmpeg := fun _ => .ok []
    transcribe := fun _ _ => .ok [] }

/-- An environment where the `ffmpeg` process fails (non-zero exit). -/
def envFfmpegFail : Env :=
  { readAll := .ok [1, 2, 3]
    ffmpeg := fun _ => .error (str "exit status 1")
    transcribe := fun _ _ => .ok [] }

/-! ### Path characterizations of `Process` (shared helper lemmas) -/

/-- If `io.ReadAll(in.Data())` fails, `Process` stops after the single
`Data()` call with a wrapped `reading input` error. -/
theorem Process_read_error (s : Scriber) (env : Env) (ctx : Ctx) (inp : Input)
    (e : GoErr) (hr : env.readAll = .error e) :
    Process s env ctx inp =
      (.error (wrapErr (str "reading input: ") e), [Event.dataCall]) := by
  simp [Process, hr]

/-- If the read succeeds and `ffmpeg` fails, `Process` returns a wrapped
`ffmpeg failed` error after running the command, and the deferred `Close`
fires on the reader from the second `Data()` call. -/
theorem Process_ffmpeg_error (s : Scriber) (env : Env) (ctx : Ctx)
    (inp : Input) (data : Bytes) (e : GoErr)
    (hr : env.readAll = .ok data) (hf : env.ffmpeg data = .error e) :
    Process s env ctx inp =
      (.error (wrapErr (str "ffmpeg failed: ") e),
       [Event.dataCall, Event.dataCall, Event.runCmd (mkCmd data),
        Event.closeCall 1]) := by
  simp [Process, hr, hf]

/-- If read and transcode succeed but the backend fails, `Process` returns
a wrapped `transcription failed` error; no send happens. -/
theorem Process_transcribe_error (s : Scriber) (env : Env) (ctx : Ctx)
    (inp : Input) (data wav : Bytes) (e : GoErr)
    (hr : env.readAll = .ok data) (hf : env.ffmpeg data = .ok wav)
    (ht : env.transcribe (Ctx.withTimeout ctx fiveMinutes)
      { name := inp.name, language := inp.language,
        format := inp.outputType, data := wav } = .error e) :
    Process s env ctx inp =
      (.error (wrapErr (str "transcription failed: ") e),
       [Event.dataCall, Event.dataCall, Event.runCmd (mkCmd data),
        Event.transcribeCall (Ctx.withTimeout ctx fiveMinutes)
          { name := inp.name, language := inp.language,
            format := inp.outputType, data := wav },
        Event.closeCall 1]) := by
  simp [Process, hr, hf, ht]

/-- If all three stages succeed, `Process` sends exactly one `Output` on
`s.resultsCh` before returning `nil`. -/
theorem Process_success (s : Scriber) (env : Env) (ctx : Ctx)
    (inp : Input) (data wav text : Bytes)
    (hr : env.readAll = .ok data) (hf : env.ffmpeg data = .ok wav)
    (ht : env.transcribe (Ctx.withTimeout ctx fiveMinutes)
      { name := inp.name, language := inp.language,
        format := inp.outputType, data := wav } = .ok text) :
    Process s env ctx inp =
      (.ok (),
       [Event.dataCall, Event.dataCall, Event.runCmd (mkCmd data),
        Event.transcribeCall (Ctx.withTimeout ctx fiveMinutes)
          { name := inp.name, language := inp.language,
            format := inp.outputType, data := wav },
        Event.send s.resultsCh
          { name := outputName inp.name inp.outputType, text := text },
        Event.closeCall 1]) := by
  simp [Process, hr, hf, ht]

/-- With no extension to replace, the name derivation prepends
`"." + outputType` in front of the whole name (Go's `strings.Replace` with
an empty `old` matches at position 0). -/
theorem outputName_no_ext (name t : GoStr) (hext : filepathExt name = []) :
    outputName name t = ('.' :: t) ++ name := by
  unfold outputName goReplace1
  rw [hext]
  rw [if_neg (by simp)]
  cases name with
  | nil => simp [strIndex]
  | cons a rest => simp [strIndex, List.isPrefixOf]

/-! ### Claims -/

/-- C1: for every input for which the transcoding step and the
transcription backend call both succeed, `Process` returns `nil` and its
trace contains exactly one `send` — publishing, on the delivery channel,
exactly one `Output` whose `Name` is the input name with its extension
replaced by `"." + OutputType` and whose `Text` is exactly the backend's
byte slice — and that send occurs strictly before the return (only the
deferred `Close` follows it in the trace). -/
theorem c1_success_publishes_exactly_one (s : Scriber) (env : Env)
    (ctx : Ctx) (inp : Input) (data wav text : Bytes)
    (hr : env.readAll = .ok data) (hf : env.ffmpeg data = .ok wav)
    (ht : env.transcribe (Ctx.withTimeout ctx fiveMinutes)
      { name := inp.name, language := inp.language,
        format := inp.outputType, data := wav } = .ok text) :
    (Process s env ctx inp).1 = .ok () ∧
    sentOutputs (Process s env ctx inp).2 =
      [{ name := outputName inp.name inp.outputType, text := text }] ∧
    (Process s env ctx inp).2 =
      [Event.dataCall, Event.dataCall, Event.runCmd (mkCmd data),
       Event.transcribeCall (Ctx.withTimeout ctx fiveMinutes)
         { name := inp.name, language := inp.language,
           format := inp.outputType, data := wav },
       Event.send s.resultsCh
         { name := outputName inp.name inp.outputType, text := text },
       Event.closeCall 1] := by
  have h := Process_success s env ctx inp data wav text hr hf ht
  refine ⟨?_, ?_, ?_⟩
  · rw [h]
  · rw [h]; rfl
  · rw [h]

/-- C1 witness: the success environment `envOk` with input `clip`. -/
theorem c1_success_publishes_exactly_one_witness :
    (Process New envOk Ctx.base inpClip).1 = .ok () ∧
    sentOutputs (Process New envOk Ctx.base inpClip).2 =
      [{ name := outputName inpClip.name inpClip.outputType,
         text := [7, 8] }] ∧
    (Process New envOk Ctx.base inpClip).2 =
      [Event.dataCall, Event.dataCall, Event.runCmd (mkCmd [1, 2, 3]),
       Event.transcribeCall (Ctx.withTimeout Ctx.base fiveMinutes)
         { name := inpClip.name, language := inpClip.language,
           format := inpClip.outputType, data := [9, 9] },
       Event.send New.resultsCh
         { name := outputName inpClip.name inpClip.outputType,
           text := [7, 8] },
       Event.closeCall 1] :=
  c1_success_publishes_exactly_one New envOk Ctx.base inpClip
    [1, 2, 3] [9, 9] [7, 8] rfl rfl rfl

/-- C2: the code violates the close-exactly-once contract. On the
input-read-failure path `Process` returns before the
`defer in.Data().Close()` statement is ever reached, so `Close` is invoked
zero times (and `Data()` only once); the claim requires exactly one close
on every path. -/
theorem c2_read_failure_never_closes :
    (Process New envReadFail Ctx.base inpClip).1 =
      .error (str "reading input: disk error") ∧
    closeCalls (Process New envReadFail Ctx.base inpClip).2 = [] ∧
    dataCallCount (Process New envReadFail Ctx.base inpClip).2 = 1 :=
  ⟨rfl, rfl, rfl⟩

/-- C3 counterexample: for input name `clip` (no extension) and
`OutputType` `srt`, the code publishes the name `.srtclip`, not
`clip.srt`: Go's `strings.Replace` with an empty `old` string inserts the
replacement at the beginning, not the end. -/
theorem c3_counterexample :
    (sentOutputs (Process New envOk Ctx.base inpClip).2).map Output.name =
      [str ".srtclip"] ∧
    str ".srtclip" ≠ str "clip.srt" :=
  ⟨rfl, by decide⟩

/-- C3 (amended): for an input whose `Name` contains no extension, the
published `Output.Name` is `"." + OutputType` prepended in front of the
input name; concretely `clip` with `srt` yields `.srtclip`. -/
theorem c3_no_extension_prepends (s : Scriber) (env : Env) (ctx : Ctx)
    (inp : Input) (data wav text : Bytes)
    (hr : env.readAll = .ok data) (hf : env.ffmpeg data = .ok wav)
    (ht : env.transcribe (Ctx.withTimeout ctx fiveMinutes)
      { name := inp.name, language := inp.language,
        format := inp.outputType, data := wav } = .ok text)
    (hext : filepathExt inp.name = []) :
    (sentOutputs (Process s env ctx inp).2).map Output.name =
      [('.' :: inp.outputType) ++ inp.name] := by
  have h := Process_success s env ctx inp data wav text hr hf ht
  rw [h]
  show [outputName inp.name inp.outputType] = _
  rw [outputName_no_ext inp.name inp.outputType hext]

/-- C3 witness: `clip` with `srt` yields `.srt` prepended: `.srtclip`. -/
theorem c3_no_extension_prepends_witness :
    (sentOutputs (Process New envOk Ctx.base inpClip).2).map Output.name =
      [('.' :: inpClip.outputType) ++ inpClip.name] :=
  c3_no_extension_prepends New envOk Ctx.base inpClip
    [1, 2, 3] [9, 9] [7, 8] rfl rfl rfl rfl

/-- C4: when the transcoding step fails, `Process` returns the non-nil
wrapped `ffmpeg failed` error, the transcription backend is never invoked,
and nothing is ever sent on the delivery channel for that call. -/
theorem c4_transcode_failure_no_publish (s : Scriber) (env : Env)
    (ctx : Ctx) (inp : Input) (data : Bytes) (e : GoErr)
    (hr : env.readAll = .ok data) (hf : env.ffmpeg data = .error e) :
    (Process s env ctx inp).1 =
      .error (wrapErr (str "ffmpeg failed: ") e) ∧
    transcribeCalls (Process s env ctx inp).2 = [] ∧
    sentOutputs (Process s env ctx inp).2 = [] := by
  have h := Process_ffmpeg_error s env ctx inp data e hr hf
  refine ⟨?_, ?_, ?_⟩
  · rw [h]
  · rw [h]; rfl
  · rw [h]; rfl

/-- C4 witness: the failing-ffmpeg environment `envFfmpegFail`. -/
theorem c4_transcode_failure_no_publish_witness :
    (Process New envFfmpegFail Ctx.base inpClip).1 =
      .error (str "ffmpeg failed: exit status 1") ∧
    transcribeCalls (Process New envFfmpegFail Ctx.base inpClip).2 = [] ∧
    sentOutputs (Process New envFfmpegFail Ctx.base inpClip).2 = [] :=
  c4_transcode_failure_no_publish New envFfmpegFail Ctx.base inpClip
    [1, 2, 3] (str "exit status 1") rfl rfl

/-- C5: the context handed to the transcription backend is always the
caller's context extended with the fixed 5-minute timeout; the transcoder
command carries no context at all (`exec.Command`, not
`exec.CommandContext`); and the command run precedes the backend call in
the trace (the sub-context is created only after transcoding completes). -/
theorem c5_backend_subcontext (s : Scriber) (env : Env) (ctx : Ctx)
    (inp : Input) (c : Ctx) (tin : TranscribeAudioInput) (cmd : Cmd)
    (hmem : Event.transcribeCall c tin ∈ (Process s env ctx inp).2)
    (hcmd : Event.runCmd cmd ∈ (Process s env ctx inp).2) :
    c = Ctx.withTimeout ctx fiveMinutes ∧ cmd.ctx = none ∧
    runCmdFirst (Process s env ctx inp).2 = true := by
  cases hr : env.readAll with
  | error e =>
    rw [Process_read_error s env ctx inp e hr] at hmem
    simp at hmem
  | ok data =>
    cases hf : env.ffmpeg data with
    | error e =>
      rw [Process_ffmpeg_error s env ctx inp data e hr hf] at hmem
      simp at hmem
    | ok wav =>
      cases hts : env.transcribe (Ctx.withTimeout ctx fiveMinutes)
          { name := inp.name, language := inp.language,
            format := inp.outputType, data := wav } with
      | error e =>
        have h := Process_transcribe_error s env ctx inp data wav e hr hf hts
        rw [h] at hmem hcmd ⊢
        simp at hmem hcmd
        exact ⟨hmem.1, by rw [hcmd]; rfl, rfl⟩
      | ok text =>
        have h := Process_success s env ctx inp data wav text hr hf hts
        rw [h] at hmem hcmd ⊢
        simp at hmem hcmd
        exact ⟨hmem.1, by rw [hcmd]; rfl, rfl⟩

/-- C5 witness: in the all-success run, the backend was called under the
5-minute sub-context of `Ctx.base`, and the `ffmpeg` command carried no
context. -/
theorem c5_backend_subcontext_witness :
    Ctx.withTimeout Ctx.base fiveMinutes =
      Ctx.withTimeout Ctx.base fiveMinutes ∧
    (mkCmd [1, 2, 3]).ctx = none ∧
    runCmdFirst (Process New envOk Ctx.base inpClip).2 = true :=
  c5_backend_subcontext New envOk Ctx.base inpClip
    (Ctx.withTimeout Ctx.base fiveMinutes)
    { name := inpClip.name, language := inpClip.language,
      format := inpClip.outputType, data := [9, 9] }
    (mkCmd [1, 2, 3]) (by decide) (by decide)

/-- C6: `New` makes the delivery channel with capacity exactly 10,
`Collect` returns that very channel, every send a `Process` call performs
targets it, and no `Scriber` operation ever receives from or closes a
channel. -/
theorem c6_delivery_channel (s : Scriber) (env : Env) (ctx : Ctx)
    (inp : Input) :
    New.resultsCh.capacity = 10 ∧
    Collect s = s.resultsCh ∧
    (sendTargets (Process s env ctx inp).2 = [] ∨
      sendTargets (Process s env ctx inp).2 = [Collect s]) ∧
    recvOrCloseOps (Process s env ctx inp).2 = [] := by
  refine ⟨rfl, rfl, ?_⟩
  cases hr : env.readAll with
  | error e =>
    rw [Process_read_error s env ctx inp e hr]
    exact ⟨Or.inl rfl, rfl⟩
  | ok data =>
    cases hf : env.ffmpeg data with
    | error e =>
      rw [Process_ffmpeg_error s env ctx inp data e hr hf]
      exact ⟨Or.inl rfl, rfl⟩
    | ok wav =>
      cases hts : env.transcribe (Ctx.withTimeout ctx fiveMinutes)
          { name := inp.name, language := inp.language,
            format := inp.outputType, data := wav } with
      | error e =>
        rw [Process_transcribe_error s env ctx inp data wav e hr hf hts]
        exact ⟨Or.inl rfl, rfl⟩
      | ok text =>
        rw [Process_success s env ctx inp data wav text hr hf hts]
        exact ⟨Or.inr rfl, rfl⟩

/-- C7 counterexample: a `Process` call whose input read fails never
invokes the transcoder at all — zero invocations, not exactly one. -/
theorem c7_counterexample :
    cmdsRun (Process New envReadFail Ctx.base inpClip).2 = [] ∧
    (cmdsRun (Process New envReadFail Ctx.base inpClip).2).length ≠ 1 :=
  ⟨rfl, by decide⟩

/-- C7 (amended): for every `Process` call whose input read succeeds,
the external transcoder is invoked exactly once, with the fixed argument
list `ffmpegArgs` (`-y`, read from `pipe:0`, `-vn`, `pcm_s16le`, fixed
sample rate, 2 channels, `32k` bitrate, WAV to `pipe:1`), stdin wired to
the input bytes, stdout captured and stderr forwarded to the host's
stderr; and a transcoder failure makes `Process` return the wrapped
`ffmpeg failed` error. -/
theorem c7_ffmpeg_fixed_invocation (s s' : Scriber) (env env' : Env)
    (ctx ctx' : Ctx) (inp inp' : Input) (data data' : Bytes) (e : GoErr)
    (hr : env.readAll = .ok data)
    (hr' : env'.readAll = .ok data')
    (hf' : env'.ffmpeg data' = .error e) :
    cmdsRun (Process s env ctx inp).2 =
      [{ prog := str "ffmpeg", args := ffmpegArgs, ctx := none,
         stdin := data, stdoutToBuf := true, stderrToHostStderr := true }] ∧
    (Process s' env' ctx' inp').1 =
      .error (wrapErr (str "ffmpeg failed: ") e) := by
  constructor
  · cases hf : env.ffmpeg data with
    | error e2 =>
      rw [Process_ffmpeg_error s env ctx inp data e2 hr hf]; rfl
    | ok wav =>
      cases hts : env.transcribe (Ctx.withTimeout ctx fiveMinutes)
          { name := inp.name, language := inp.language,
            format := inp.outputType, data := wav } with
      | error e2 =>
        rw [Process_transcribe_error s env ctx inp data wav e2 hr hf hts]
        rfl
      | ok text =>
        rw [Process_success s env ctx inp data wav text hr hf hts]; rfl
  · rw [Process_ffmpeg_error s' env' ctx' inp' data' e hr' hf']

/-- C7 witness: the success environment runs exactly the fixed command on
the bytes read; the failing-ffmpeg environment yields the wrapped error. -/
theorem c7_ffmpeg_fixed_invocation_witness :
    cmdsRun (Process New envOk Ctx.base inpClip).2 =
      [{ prog := str "ffmpeg", args := ffmpegArgs, ctx := none,
         stdin := [1, 2, 3], stdoutToBuf := true,
         stderrToHostStderr := true }] ∧
    (Process New envFfmpegFail Ctx.base inpClip).1 =
      .error (str "ffmpeg failed: exit status 1") :=
  c7_ffmpeg_fixed_invocation New New envOk envFfmpegFail Ctx.base Ctx.base
    inpClip inpClip [1, 2, 3] [1, 2, 3] (str "exit status 1") rfl rfl rfl

/-- A list is a `isPrefixOf`-prefix of itself followed by anything. -/
theorem isPrefixOf_append_self (l e : List Char) :
    l.isPrefixOf (l ++ e) = true := by
  induction l with
  | nil => simp [List.isPrefixOf]
  | cons a rest ih => simp [List.cons_append, List.isPrefixOf, ih]

/-- C8: when `OPENAI_API_KEY` is absent (`os.Getenv` yields the empty
string), startup terminates with exit code 1 before the `Scriber` is even
constructed, so no file is handled; and every error a `Process` call can
return carries one of the three per-stage prefixes (`reading input`,
`ffmpeg failed`, `transcription failed`) — a missing credential is never
among them. -/
theorem c8_missing_credential_fatal (s : Scriber) (env : Env) (ctx : Ctx)
    (inp : Input) (msg : GoErr)
    (hmsg : (Process s env ctx inp).1 = .error msg) :
    mainStartup (str "") = .error 1 ∧
    ((str "reading input: ").isPrefixOf msg = true ∨
     (str "ffmpeg failed: ").isPrefixOf msg = true ∨
     (str "transcription failed: ").isPrefixOf msg = true) := by
  refine ⟨rfl, ?_⟩
  cases hr : env.readAll with
  | error e =>
    rw [Process_read_error s env ctx inp e hr] at hmsg
    simp at hmsg
    rw [← hmsg]
    exact Or.inl (isPrefixOf_append_self _ _)
  | ok data =>
    cases hf : env.ffmpeg data with
    | error e =>
      rw [Process_ffmpeg_error s env ctx inp data e hr hf] at hmsg
      simp at hmsg
      rw [← hmsg]
      exact Or.inr (Or.inl (isPrefixOf_append_self _ _))
    | ok wav =>
      cases hts : env.transcribe (Ctx.withTimeout ctx fiveMinutes)
          { name := inp.name, language := inp.language,
            format := inp.outputType, data := wav } with
      | error e =>
        rw [Process_transcribe_error s env ctx inp data wav e hr hf hts]
          at hmsg
        simp at hmsg
        rw [← hmsg]
        exact Or.inr (Or.inr (isPrefixOf_append_self _ _))
      | ok text =>
        rw [Process_success s env ctx inp data wav text hr hf hts] at hmsg
        simp at hmsg

/-- C8 witness: the read-failure environment returns a `reading input`
error, and startup with the empty key exits with code 1. -/
theorem c8_missing_credential_fatal_witness :
    mainStartup (str "") = .error 1 ∧
    ((str "reading input: ").isPrefixOf
        (str "reading input: disk error") = true ∨
     (str "ffmpeg failed: ").isPrefixOf
        (str "reading input: disk error") = true ∨
     (str "transcription failed: ").isPrefixOf
        (str "reading input: disk error") = true) :=
  c8_missing_credential_fatal New envReadFail Ctx.base inpClip
    (str "reading input: disk error") rfl

/-- C9: on the all-success path `Data()` is invoked twice and `Close` is
invoked exactly once — on the reader returned by the second invocation
(index 1), never on the consumed reader (index 0); on the
input-read-failure path `Data()` is invoked once and `Close` never. -/
theorem c9_second_reader_closed (s s' : Scriber) (env env' : Env)
    (ctx ctx' : Ctx) (inp inp' : Input) (data wav text : Bytes) (e : GoErr)
    (hr : env.readAll = .ok data) (hf : env.ffmpeg data = .ok wav)
    (ht : env.transcribe (Ctx.withTimeout ctx fiveMinutes)
      { name := inp.name, language := inp.language,
        format := inp.outputType, data := wav } = .ok text)
    (hr' : env'.readAll = .error e) :
    dataCallCount (Process s env ctx inp).2 = 2 ∧
    closeCalls (Process s env ctx inp).2 = [1] ∧
    0 ∉ closeCalls (Process s env ctx inp).2 ∧
    dataCallCount (Process s' env' ctx' inp').2 = 1 ∧
    closeCalls (Process s' env' ctx' inp').2 = [] := by
  rw [Process_success s env ctx inp data wav text hr hf ht,
      Process_read_error s' env' ctx' inp' e hr']
  exact ⟨rfl, rfl, (by decide : (0 : Nat) ∉ ([1] : List Nat)), rfl, rfl⟩

/-- C9 witness: the success environment and the read-failure environment. -/
theorem c9_second_reader_closed_witness :
    dataCallCount (Process New envOk Ctx.base inpClip).2 = 2 ∧
    closeCalls (Process New envOk Ctx.base inpClip).2 = [1] ∧
    0 ∉ closeCalls (Process New envOk Ctx.base inpClip).2 ∧
    dataCallCount (Process New envReadFail Ctx.base inpClip).2 = 1 ∧
    closeCalls (Process New envReadFail Ctx.base inpClip).2 = [] :=
  c9_second_reader_closed New New envOk envReadFail Ctx.base Ctx.base
    inpClip inpClip [1, 2, 3] [9, 9] [7, 8] (str "disk error")
    rfl rfl rfl rfl

/-- `strIndex` returns a position where the pattern actually matches. -/
theorem strIndex_isMatch (pat s : GoStr) (j : Nat)
    (h : strIndex pat s = some j) : pat.isPrefixOf (s.drop j) = true := by
  induction s generalizing j with
  | nil =>
    by_cases hp : pat = []
    · subst hp
      simp [strIndex] at h
      subst h
      rfl
    · simp [strIndex, hp] at h
  | cons a rest ih =>
    by_cases hp : pat.isPrefixOf (a :: rest) = true
    · simp [strIndex, hp] at h
      subst h
      exact hp
    · simp [strIndex, hp, Option.map_eq_some'] at h
      obtain ⟨j', hj', rfl⟩ := h
      rw [List.drop_succ_cons]
      exact ih j' hj'

/-- `strIndex` returns the leftmost match: the pattern does not match at
any earlier position. -/
theorem strIndex_leftmost (pat s : GoStr) (j k : Nat)
    (h : strIndex pat s = some j) (hk : k < j) :
    pat.isPrefixOf (s.drop k) = false := by
  induction s generalizing j k with
  | nil =>
    by_cases hp : pat = []
    · subst hp
      simp [strIndex] at h
      omega
    · simp [strIndex, hp] at h
  | cons a rest ih =>
    by_cases hp : pat.isPrefixOf (a :: rest) = true
    · simp [strIndex, hp] at h
      omega
    · simp [strIndex, hp, Option.map_eq_some'] at h
      obtain ⟨j', hj', rfl⟩ := h
      cases k with
      | zero =>
        rw [List.drop_zero]
        exact Bool.eq_false_iff.mpr hp
      | succ k' =>
        rw [List.drop_succ_cons]
        exact ih j' k' hj' (Nat.lt_of_succ_lt_succ hk)

/-- C10: the name derivation replaces the leftmost occurrence of the final
extension anywhere in the name: when `strIndex` locates the first
occurrence at position `j`, the result splices `"." + outputType` in at
`j` (where the extension genuinely matches, and matches at no earlier
position), leaving the rest — including the actual final extension when it
sits further right — untouched; concretely `a.mp4.backup.mp4` with `srt`
becomes `a.srt.backup.mp4`. -/
theorem c10_first_occurrence_replaced (name t : GoStr) (j k : Nat)
    (hne : filepathExt name ≠ '.' :: t)
    (hj : strIndex (filepathExt name) name = some j)
    (hk : k < j) :
    outputName name t =
      name.take j ++ ('.' :: t) ++
        name.drop (j + (filepathExt name).length) ∧
    (filepathExt name).isPrefixOf (name.drop j) = true ∧
    (filepathExt name).isPrefixOf (name.drop k) = false ∧
    outputName (str "a.mp4.backup.mp4") (str "srt") =
      str "a.srt.backup.mp4" := by
  refine ⟨?_, strIndex_isMatch _ _ _ hj, strIndex_leftmost _ _ _ _ hj hk,
    by decide⟩
  unfold outputName goReplace1
  rw [if_neg hne, hj]

/-- C10 witness: `a.mp4.backup.mp4` with `srt`: the first occurrence of
`.mp4` is at position 1, the final extension at position 12 survives. -/
theorem c10_first_occurrence_replaced_witness :
    outputName (str "a.mp4.backup.mp4") (str "srt") =
      (str "a.mp4.backup.mp4").take 1 ++ ('.' :: str "srt") ++
        (str "a.mp4.backup.mp4").drop
          (1 + (filepathExt (str "a.mp4.backup.mp4")).length) ∧
    (filepathExt (str "a.mp4.backup.mp4")).isPrefixOf
      ((str "a.mp4.backup.mp4").drop 1) = true ∧
    (filepathExt (str "a.mp4.backup.mp4")).isPrefixOf
      ((str "a.mp4.backup.mp4").drop 0) = false ∧
    outputName (str "a.mp4.backup.mp4") (str "srt") =
      str "a.srt.backup.mp4" :=
  c10_first_occurrence_replaced (str "a.mp4.backup.mp4") (str "srt") 1 0
    (by decide) (by decide) (by decide)

end Transcribo
